import Mathlib

/-!
Verification of the Telegram-Archive live viewer back-end.

The definitions below are a shallow embedding of the Python sources:

* `src/src/web/main.py` — session auth (`require_auth`, `require_master`),
  login with rate limiting, the access-scope resolver (`get_user_chat_ids`),
  the media endpoint (`serve_media`) and the WebSocket fan-out
  (`ConnectionManager.broadcast_to_chat`);
* `src/src/listener.py` — `MassOperationProtector` (zero-footprint burst
  protection) and the buffered-operation application loop of
  `TelegramListener`.

Python dicts are modelled as insertion-ordered association lists, Python
sets of chat ids as `Finset Int`, timestamps as `Int` (seconds), and
machine integers as unbounded `Int` (no overflow is relevant here).
-/

namespace TgArchive

/-- Python dict lookup: `d.get(k)` over an insertion-ordered assoc list. -/
def dictGet {K α : Type} [DecidableEq K] (d : List (K × α)) (k : K) : Option α :=
  (d.find? (fun p => decide (p.1 = k))).map (fun p => p.2)

/-- Python dict write `d[k] = v`: replace in place if present, else append
(new keys go to the end, matching dict insertion order). -/
def dictSet {K α : Type} [DecidableEq K] (d : List (K × α)) (k : K) (v : α) :
    List (K × α) :=
  if d.any (fun p => decide (p.1 = k)) then
    d.map (fun p => if p.1 = k then (k, v) else p)
  else d ++ [(k, v)]

/-- Python dict deletion `del d[k]` / `d.pop(k, None)`. -/
def dictDel {K α : Type} [DecidableEq K] (d : List (K × α)) (k : K) :
    List (K × α) :=
  d.filter (fun p => !(decide (p.1 = k)))

/-- `UserContext` from `src/src/web/main.py` (lines 407-411):
`allowed_chat_ids = None` means "all chats". -/
structure UserContext where
  username : String
  role : String
  allowed_chat_ids : Option (Finset Int)
  deriving DecidableEq

/-- `SessionData` from `src/src/web/main.py` (lines 414-420). -/
structure SessionData where
  username : String
  role : String
  allowed_chat_ids : Option (Finset Int)
  created_at : Int
  last_accessed : Int
  deriving DecidableEq

/-- `require_auth` from `src/src/web/main.py` (lines 478-499).
Arguments `authEnabled` and `ttl` embed the module constants
`AUTH_ENABLED` and `AUTH_SESSION_SECONDS`; `sessions` is the module-level
`_sessions` dict and `now` is `time.time()`.  The result pairs the HTTP
outcome (`.error (401, _)` models a raised `HTTPException`) with the
updated session table. -/
def require_auth (authEnabled : Bool) (ttl : Int)
    (sessions : List (String × SessionData)) (now : Int) (cookie : Option String) :
    Except (Nat × String) UserContext × List (String × SessionData) :=
  if authEnabled = false then
    (Except.ok ⟨"anonymous", "master", none⟩, sessions)
  else
    match cookie with
    | none => (Except.error (401, "Unauthorized"), sessions)
    | some tok =>
      if tok = "" then (Except.error (401, "Unauthorized"), sessions)
      else
        match dictGet sessions tok with
        | none => (Except.error (401, "Unauthorized"), sessions)
        | some sd =>
          if ttl < now - sd.created_at then
            (Except.error (401, "Session expired"), dictDel sessions tok)
          else
            (Except.ok ⟨sd.username, sd.role, sd.allowed_chat_ids⟩,
             dictSet sessions tok { sd with last_accessed := now })

/-- `require_master` from `src/src/web/main.py` (lines 502-506). -/
def require_master (user : UserContext) : Except (Nat × String) UserContext :=
  if user.role ≠ "master" then Except.error (403, "Admin access required")
  else Except.ok user

/-- The coercion `config.display_chat_ids or None` on line 514 of
`src/src/web/main.py`: an empty configured filter means "no filter". -/
def master_display_filter (display_chat_ids : Finset Int) : Option (Finset Int) :=
  if display_chat_ids = ∅ then none else some display_chat_ids

/-- `get_user_chat_ids` from `src/src/web/main.py` (lines 509-524):
effective chat scope of a caller; `none` = unrestricted. -/
def get_user_chat_ids (display_chat_ids : Finset Int) (user : UserContext) :
    Option (Finset Int) :=
  let master_filter := master_display_filter display_chat_ids
  if user.role = "master" then master_filter
  else
    match user.allowed_chat_ids with
    | none => master_filter
    | some a =>
      match master_filter with
      | none => some a
      | some m => some (a ∩ m)

/-- The scope guard at the top of `get_messages`
(`src/src/web/main.py` lines 872-874): `false` models the 403 rejection. -/
def get_messages_scope_check (scope : Option (Finset Int)) (chat_id : Int) : Bool :=
  match scope with
  | none => true
  | some s => decide (chat_id ∈ s)

/-- One step of `pathlib` resolution of a path segment under an abstract
root, with no symlinks present: `""` and `"."` are dropped, `".."` pops one
component, and a pop past the root (`none`) is treated as having escaped
the media root for good (re-entering the root from above through its own
directory name is not modelled). -/
def resolveStep (acc : Option (List String)) (seg : String) : Option (List String) :=
  match acc with
  | none => none
  | some stack =>
    if seg = "" ∨ seg = "." then some stack
    else if seg = ".." then
      match stack with
      | [] => none
      | _ => some stack.dropLast
    else some (stack ++ [seg])

/-- `(_media_root / path).resolve()` followed by
`resolved.is_relative_to(_media_root)` (lines 561-562 of
`src/src/web/main.py`): `some r` is the canonical form relative to the
media root, `none` means the canonical form is outside the root. -/
def resolve_under_root (path : List String) : Option (List String) :=
  path.foldl resolveStep (some [])

/-- Outcome of the media endpoint. -/
inductive MediaResult where
  | forbidden
  | notFound
  | file (segments : List String)
  deriving DecidableEq

/-- `serve_media` from `src/src/web/main.py` (lines 556-579).
`mediaFiles` is the set of files that exist under the media root, given by
their root-relative canonical segment lists; `scope` is the caller's
effective scope (`get_user_chat_ids`); `path` is the request path split on
`/` (as `path.split("/")` does on line 567). -/
def serve_media (mediaFiles : List (List String)) (scope : Option (Finset Int))
    (path : List String) : MediaResult :=
  match resolve_under_root path with
  | none => MediaResult.forbidden
  | some resolved =>
    let scopeReject : Bool :=
      match scope with
      | none => false
      | some s =>
        match path with
        | p0 :: _ :: _ =>
          if p0 = "avatars" then false
          else
            match p0.toInt? with
            | some cid => decide (cid ∉ s)
            | none => false
        | _ => false
    if scopeReject then MediaResult.forbidden
    else if resolved ∈ mediaFiles then MediaResult.file resolved
    else MediaResult.notFound

/-- A live WebSocket connection as held by `ConnectionManager`
(`src/src/web/main.py` lines 55-63): the per-connection subscription set
(`active_connections[ws]`) and the scope recorded at accept time
(`_allowed_chats[ws]`, `none` = unrestricted). -/
structure Conn where
  ws : Nat
  subscriptions : Finset Int
  allowed_chat_ids : Option (Finset Int)
  deriving DecidableEq

/-- `ConnectionManager.broadcast_to_chat` from `src/src/web/main.py`
(lines 84-100), restricted to its routing decision: the returned list is
exactly the connections the event is sent to (all sends succeed). -/
def broadcast_to_chat (conns : List Conn) (chat_id : Int) : List Conn :=
  conns.filter (fun w =>
    (match w.allowed_chat_ids with
     | some allowed => decide (chat_id ∈ allowed)
     | none => true)
    && (decide (chat_id ∈ w.subscriptions) || decide (w.subscriptions = ∅)))

/-- Payload of a queued mutation, mirroring the two dict shapes built in
`TelegramListener._register_handlers` (`src/src/listener.py` lines 455-459
and 506-509). -/
inductive OpData where
  | edit (message_id : Int) (new_text : String) (edit_date : Option Int)
  | deletion (message_id : Int) (chat_id : Int)
  deriving DecidableEq, Repr

/-- `PendingOperation` from `src/src/listener.py` (lines 32-38). -/
structure PendingOperation where
  chat_id : Int
  operation_type : String
  timestamp : Int
  data : OpData
  deriving DecidableEq, Repr

/-- One entry of `MassOperationProtector._blocked`
(`src/src/listener.py` line 75): `(blocked_until, reason, discarded_count)`. -/
structure BlockInfo where
  blocked_until : Int
  reason : String
  discarded : Nat
  deriving DecidableEq, Repr

/-- The mutable state of `MassOperationProtector`
(`src/src/listener.py` lines 55-87) together with its configuration. -/
structure ProtectorState where
  threshold : Nat
  window : Int
  buffer_delay : Int
  pending : List (Int × List PendingOperation)
  blocked : List (Int × BlockInfo)
  operations_applied : Nat
  operations_discarded : Nat
  bursts_detected : Nat
  chats_protected : List Int
  deriving DecidableEq, Repr

/-- The state built by `MassOperationProtector.__init__`
(`src/src/listener.py` lines 55-87). -/
def initProtector (threshold : Nat) (window_seconds buffer_delay_seconds : Int) :
    ProtectorState :=
  ⟨threshold, window_seconds, buffer_delay_seconds, [], [], 0, 0, 0, []⟩

/-- `MassOperationProtector.is_blocked` (`src/src/listener.py` lines
106-116).  Returns the `(bool, reason)` pair and the state, since an
expired block record is deleted on the way. -/
def is_blocked (s : ProtectorState) (now : Int) (chat_id : Int) :
    (Bool × String) × ProtectorState :=
  match dictGet s.blocked chat_id with
  | some bi =>
    if now < bi.blocked_until then ((true, bi.reason), s)
    else ((false, ""), { s with blocked := dictDel s.blocked chat_id })
  | none => ((false, ""), s)

/-- The reason string built on line 153 of `src/src/listener.py`. -/
def burstReason (discarded : Nat) (operation_type : String) : String :=
  "BURST DETECTED: " ++ toString discarded ++ " " ++ operation_type ++
    "s in rapid succession"

/-- `set.add` on `stats['chats_protected']` (`src/src/listener.py`
line 159), with the Python set modelled as a duplicate-free list. -/
def addProtected (cp : List Int) (chat_id : Int) : List Int :=
  if chat_id ∈ cp then cp else cp ++ [chat_id]

/-- `MassOperationProtector.queue_operation` (`src/src/listener.py` lines
118-172): reject if blocked, else append to the per-chat pending buffer;
if the buffer has reached `threshold`, discard it whole, arm a block until
`now + window`, and bump the statistics. -/
def queue_operation (s : ProtectorState) (now : Int) (chat_id : Int)
    (operation_type : String) (data : OpData) :
    (Bool × String) × ProtectorState :=
  let ((blocked, reason), s1) := is_blocked s now chat_id
  if blocked then
    ((false, "BLOCKED: " ++ reason),
     { s1 with operations_discarded := s1.operations_discarded + 1 })
  else
    let cur := (dictGet s1.pending chat_id).getD []
    let op : PendingOperation := ⟨chat_id, operation_type, now, data⟩
    let newList := cur ++ [op]
    let s2 := { s1 with pending := dictSet s1.pending chat_id newList }
    if s2.threshold ≤ newList.length then
      let discarded := newList.length
      let reason2 := burstReason discarded operation_type
      (((false, reason2),
        { s2 with
            pending := dictDel s2.pending chat_id
            blocked := dictSet s2.blocked chat_id
              ⟨now + s2.window, reason2, discarded⟩
            bursts_detected := s2.bursts_detected + 1
            operations_discarded := s2.operations_discarded + discarded
            chats_protected := addProtected s2.chats_protected chat_id }))
    else ((true, "queued"), s2)

/-- The per-chat body of the first loop of
`MassOperationProtector._process_pending` (`src/src/listener.py` lines
203-223): discard the whole buffer of a blocked chat, else move the
operations older than `cutoff` out of the buffer into the ready list. -/
def ppStep (now cutoff : Int) (acc : List PendingOperation × ProtectorState)
    (chat_id : Int) : List PendingOperation × ProtectorState :=
  let (ready_ops, s) := acc
  let ((blocked, _), s1) := is_blocked s now chat_id
  if blocked then
    let n := ((dictGet s1.pending chat_id).getD []).length
    (ready_ops,
     { s1 with
         operations_discarded := s1.operations_discarded + n
         pending := dictDel s1.pending chat_id })
  else
    let ops := (dictGet s1.pending chat_id).getD []
    let ready := ops.filter (fun op => decide (op.timestamp < cutoff))
    let remaining := ops.filter (fun op => !(decide (op.timestamp < cutoff)))
    if ready.isEmpty then (ready_ops, s1)
    else
      (ready_ops ++ ready,
       if remaining.isEmpty then { s1 with pending := dictDel s1.pending chat_id }
       else { s1 with pending := dictSet s1.pending chat_id remaining })

/-- The body of the second loop of `MassOperationProtector._process_pending`
(`src/src/listener.py` lines 226-235): drop ready operations whose chat got
blocked meanwhile, count the rest as applied. -/
def ppFilter (now : Int) (acc : List PendingOperation × ProtectorState)
    (op : PendingOperation) : List PendingOperation × ProtectorState :=
  let (result, s) := acc
  let ((blocked, _), s1) := is_blocked s now op.chat_id
  if blocked then
    (result, { s1 with operations_discarded := s1.operations_discarded + 1 })
  else
    (result ++ [op], { s1 with operations_applied := s1.operations_applied + 1 })

/-- `MassOperationProtector._process_pending` (`src/src/listener.py` lines
191-237), also the body of `get_ready_operations` (lines 239-241): returns
the operations ready to be applied together with the updated state. -/
def process_pending (s : ProtectorState) (now : Int) :
    List PendingOperation × ProtectorState :=
  let cutoff := now - s.buffer_delay
  let keys := s.pending.map (fun p => p.1)
  let (ready_ops, s1) := keys.foldl (ppStep now cutoff) ([], s)
  ready_ops.foldl (ppFilter now) ([], s1)

/-- Queue a batch of `(timestamp, data)` mutation events for one chat, one
`queue_operation` call each, in order — the event-handler side of
`TelegramListener` feeding the protector (`src/src/listener.py` lines
452-460 and 503-510). -/
def queueMany (s : ProtectorState) (chat_id : Int) (operation_type : String)
    (items : List (Int × OpData)) : ProtectorState :=
  items.foldl (fun st it => (queue_operation st it.1 chat_id operation_type it.2).2) s

/-- A row of the `messages` table, reduced to the columns the listener
mutates. -/
structure MsgRow where
  chat_id : Int
  id : Int
  text : String
  edit_date : Option Int
  deriving DecidableEq, Repr

/-- Modelled from the spec: `db.update_message_text` (the `src/db.py`
adapter facade is not under `src/`) — the release loop applies an edit
"edit-text" mutation to storage, setting the new text and edit date of the
message identified by `(chat_id, message_id)`. -/
def update_message_text (db : List MsgRow) (chat_id message_id : Int)
    (new_text : String) (edit_date : Option Int) : List MsgRow :=
  db.map (fun m =>
    if m.chat_id = chat_id ∧ m.id = message_id then
      { m with text := new_text, edit_date := edit_date }
    else m)

/-- Modelled from the spec: `db.delete_message` (the `src/db.py` adapter
facade is not under `src/`) — the release loop applies a delete mutation,
removing the message identified by `(chat_id, message_id)`. -/
def delete_message (db : List MsgRow) (chat_id message_id : Int) : List MsgRow :=
  db.filter (fun m => !(decide (m.chat_id = chat_id ∧ m.id = message_id)))

/-- The per-operation body of `TelegramListener._process_buffered_operations`
(`src/src/listener.py` lines 560-576): dispatch an operation to the storage
adapter according to its type. -/
def apply_ready_op (db : List MsgRow) (op : PendingOperation) : List MsgRow :=
  match op.data with
  | OpData.edit mid txt ed => update_message_text db op.chat_id mid txt ed
  | OpData.deletion mid _ => delete_message db op.chat_id mid

/-- One release tick of `TelegramListener._process_buffered_operations`
(`src/src/listener.py` lines 544-585): apply every ready operation to
storage, in order. -/
def process_buffered_operations (db : List MsgRow)
    (ops : List PendingOperation) : List MsgRow :=
  ops.foldl apply_ready_op db

/-- A `viewer_accounts` row as read by `login`
(`src/src/web/main.py` lines 643-652): `allowed_chat_ids` is the raw JSON
text column (`none` = SQL NULL). -/
structure ViewerRow where
  username : String
  password_hash : String
  salt : String
  allowed_chat_ids : Option String
  is_active : Bool
  deriving DecidableEq, Repr

/-- An audit row as written by `db.create_audit_log` from `login`
(`src/src/web/main.py` lines 665-673, 689-697, 701-709). -/
structure AuditEntry where
  username : String
  role : String
  action : String
  endpoint : String
  ip_address : String
  user_agent : String
  deriving DecidableEq, Repr

/-- The module-level mutable state of `src/src/web/main.py` that `login`
touches: `_sessions`, `_login_attempts` and the audit table behind
`db.create_audit_log`. -/
structure WebState where
  sessions : List (String × SessionData)
  login_attempts : List (String × List Int)
  audit : List AuditEntry
  deriving DecidableEq

/-- `_LOGIN_RATE_LIMIT` (`src/src/web/main.py` line 398). -/
def LOGIN_RATE_LIMIT : Nat := 15

/-- `_LOGIN_RATE_WINDOW` (`src/src/web/main.py` line 399). -/
def LOGIN_RATE_WINDOW : Int := 300

/-- `_MAX_SESSIONS_PER_USER` (`src/src/web/main.py` line 396). -/
def MAX_SESSIONS_PER_USER : Nat := 10

/-- `_check_rate_limit` (`src/src/web/main.py` lines 435-441), fused with
the write-back of the pruned attempt list: returns whether the request is
within limits, and the pruned per-IP attempt list that the function stores
back into `_login_attempts[ip]`. -/
def check_rate_limit (attempts : List Int) (now : Int) : Bool × List Int :=
  let kept := attempts.filter (fun t => decide (now - t < LOGIN_RATE_WINDOW))
  (decide (kept.length < LOGIN_RATE_LIMIT), kept)

/-- `_create_session` (`src/src/web/main.py` lines 448-458), with the
random `secrets.token_urlsafe(32)` supplied as `token` and `time.time()`
as `now`: evict this user's oldest sessions past the quota, then store the
new session. -/
def create_session (sessions : List (String × SessionData)) (token : String)
    (username role : String) (allowed_chat_ids : Option (Finset Int))
    (now : Int) : List (String × SessionData) :=
  let user_sessions := sessions.filter (fun p => decide (p.2.username = username))
  let sessions1 :=
    if MAX_SESSIONS_PER_USER ≤ user_sessions.length then
      let sorted := user_sessions.mergeSort
        (fun a b => decide (a.2.created_at ≤ b.2.created_at))
      let evicted : List String := (sorted.take
        (user_sessions.length - MAX_SESSIONS_PER_USER + 1)).map (fun p => p.1)
      sessions.filter (fun p => !(decide (p.1 ∈ evicted)))
    else sessions
  dictSet sessions1 token
    ⟨username, role, allowed_chat_ids, now, now⟩

/-- The parse of a viewer's `allowed_chat_ids` column inside `login`
(`src/src/web/main.py` lines 647-652): `None` stays unrestricted, a falsy
(empty) string stays unrestricted, and a `json.loads` failure falls back
to unrestricted.  `jsonParse` stands for `set(json.loads(...))`, returning
`none` on any `JSONDecodeError`/`TypeError`. -/
def parse_allowed_chat_ids (jsonParse : String → Option (Finset Int))
    (column : Option String) : Option (Finset Int) :=
  match column with
  | none => none
  | some s =>
    if s = "" then none
    else
      match jsonParse s with
      | some ids => some ids
      | none => none

/-- The environment of `login` that does not change across requests:
`AUTH_ENABLED`, the master credential pair (`VIEWER_USERNAME` /
`VIEWER_PASSWORD`), whether `db` is available, the viewer-account table
(`db.get_viewer_by_username`), the PBKDF2-HMAC-SHA256 derivation
`_hash_password` (treated as an opaque function of password and salt) and
`set(json.loads(...))` for the scope column. -/
structure LoginEnv where
  authEnabled : Bool
  masterUsername : String
  masterPassword : String
  dbPresent : Bool
  viewers : String → Option ViewerRow
  pbkdf2 : String → String → String
  jsonParse : String → Option (Finset Int)

/-- The response of `login`: HTTP status, the role in the JSON body and
the session token set as cookie (successful logins only). -/
structure LoginResult where
  status : Nat
  role : Option String
  token : Option String
  deriving DecidableEq, Repr

/-- `login` (`src/src/web/main.py` lines 609-710), after client-IP
resolution: rate-limit check (which stores the pruned attempt list), body
validation, attempt recording, viewer-account check, master-credential
check, failure audit.  `body` is the parsed JSON `(username, password)`
(already `.strip()`ed), `none` when the body is not valid JSON. -/
def login (env : LoginEnv) (st : WebState) (now : Int) (client_ip : String)
    (body : Option (String × String)) (user_agent : String)
    (freshToken : String) : LoginResult × WebState :=
  if env.authEnabled = false then (⟨200, none, none⟩, st)
  else
    let attempts := (dictGet st.login_attempts client_ip).getD []
    let (ok, kept) := check_rate_limit attempts now
    let st1 := { st with login_attempts := dictSet st.login_attempts client_ip kept }
    if !ok then (⟨429, none, none⟩, st1)
    else
      match body with
      | none => (⟨400, none, none⟩, st1)
      | some (username, password) =>
        if username = "" ∨ password = "" then (⟨400, none, none⟩, st1)
        else
          let st2 := { st1 with
            login_attempts := dictSet st1.login_attempts client_ip (kept ++ [now]) }
          let ua := user_agent.take 500
          let viewerHit : Option ViewerRow :=
            if env.dbPresent then
              match env.viewers username with
              | some v =>
                if v.is_active ∧ env.pbkdf2 password v.salt = v.password_hash
                then some v else none
              | none => none
            else none
          match viewerHit with
          | some v =>
            let allowed := parse_allowed_chat_ids env.jsonParse v.allowed_chat_ids
            let st3 := { st2 with
              sessions := create_session st2.sessions freshToken username
                "viewer" allowed now
              audit := st2.audit ++
                (if env.dbPresent then
                  [⟨username, "viewer", "login_success", "/api/login",
                    client_ip, ua⟩]
                 else []) }
            (⟨200, some "viewer", some freshToken⟩, st3)
          | none =>
            if username = env.masterUsername ∧ password = env.masterPassword then
              let st3 := { st2 with
                sessions := create_session st2.sessions freshToken username
                  "master" none now
                audit := st2.audit ++
                  (if env.dbPresent then
                    [⟨username, "master", "login_success", "/api/login",
                      client_ip, ua⟩]
                   else []) }
              (⟨200, some "master", some freshToken⟩, st3)
            else
              let st3 := { st2 with audit := st2.audit ++
                (if env.dbPresent then
                  [⟨username, "unknown", "login_failed", "/api/login",
                    client_ip, ua⟩]
                 else []) }
              (⟨401, none, none⟩, st3)

/-- Iterate `login` over a list of request times from one IP with fixed
credentials, collecting the HTTP statuses. -/
def runLogins (env : LoginEnv) (st : WebState) (client_ip : String)
    (username password user_agent freshToken : String) (times : List Int) :
    List Nat × WebState :=
  times.foldl
    (fun acc t =>
      let (r, st') := login env acc.2 t client_ip (some (username, password))
        user_agent freshToken
      (acc.1 ++ [r.status], st'))
    ([], st)

/-! ## Theorems -/

/-- C4: Effective scope computation — the resolver returns the master
display filter `M` for master callers and for viewers with unrestricted
(`none`) `allowed_chat_ids`; a viewer restricted to `A` gets `A ∩ M` when
`M` is set and `A` otherwise; a restricted viewer never gets the
unrestricted scope (so an empty result set is never conflated with
`none`); and the message endpoint rejects (403) any chat outside
`A ∩ M` (scenario S4). -/
theorem effective_scope_computation (M : Finset Int) (u : UserContext)
    (A : Finset Int) (cid : Int) :
    (u.role = "master" → get_user_chat_ids M u = master_display_filter M) ∧
    (u.role ≠ "master" → u.allowed_chat_ids = none →
      get_user_chat_ids M u = master_display_filter M) ∧
    (u.role ≠ "master" → u.allowed_chat_ids = some A → M ≠ ∅ →
      get_user_chat_ids M u = some (A ∩ M)) ∧
    (u.role ≠ "master" → u.allowed_chat_ids = some A → M = ∅ →
      get_user_chat_ids M u = some A) ∧
    (u.role ≠ "master" → u.allowed_chat_ids = some A →
      get_user_chat_ids M u ≠ none) ∧
    (u.role ≠ "master" → u.allowed_chat_ids = some A → M ≠ ∅ → cid ∉ A ∩ M →
      get_messages_scope_check (get_user_chat_ids M u) cid = false) := by
  unfold get_user_chat_ids master_display_filter get_messages_scope_check
  refine ⟨?_, ?_, ?_, ?_, ?_, ?_⟩
  · intro h; simp [h]
  · intro h h2; simp [h, h2]
  · intro h h2 h3; simp [h, h2, h3]
  · intro h h2 h3; simp [h, h2, h3]
  · intro h h2
    by_cases h3 : M = ∅ <;> simp [h, h2, h3]
  · intro h h2 h3 h4; simp [h, h2, h3, h4]

/-- Witness for C4 at scenario S4: master filter `{-1001, -1002}`, viewer
`bob` with `allowed_chat_ids = {-1002, -1003}`, requesting chat `-1003`. -/
theorem effective_scope_computation_witness :
    get_user_chat_ids {-1001, -1002} ⟨"bob", "viewer", some {-1002, -1003}⟩
      = some (({-1002, -1003} : Finset Int) ∩ {-1001, -1002}) ∧
    get_messages_scope_check
      (get_user_chat_ids {-1001, -1002} ⟨"bob", "viewer", some {-1002, -1003}⟩)
      (-1003) = false :=
  ⟨(effective_scope_computation {-1001, -1002}
      ⟨"bob", "viewer", some {-1002, -1003}⟩ {-1002, -1003} (-1003)).2.2.1
      (by decide) rfl (by decide),
   (effective_scope_computation {-1001, -1002}
      ⟨"bob", "viewer", some {-1002, -1003}⟩ {-1002, -1003} (-1003)).2.2.2.2.2
      (by decide) rfl (by decide) (by decide)⟩

/-- C8: Fan-out delivery — a broadcast for chat `c` is sent to exactly the
connections whose recorded scope `S` is `none` or contains `c`, and whose
subscription set `U` contains `c` or is empty. -/
theorem fanout_delivery (conns : List Conn) (c : Int) (w : Conn) :
    w ∈ broadcast_to_chat conns c ↔
      w ∈ conns ∧
      (w.allowed_chat_ids = none ∨ ∃ S, w.allowed_chat_ids = some S ∧ c ∈ S) ∧
      (c ∈ w.subscriptions ∨ w.subscriptions = ∅) := by
  unfold broadcast_to_chat
  rw [List.mem_filter]
  cases hA : w.allowed_chat_ids with
  | none => simp [hA]
  | some S => simp [hA]

/-- C9: when no master credential pair is configured (`AUTH_ENABLED`
false), `require_auth` returns a master-role context with unrestricted
scope for every request — regardless of cookie, session table, or time —
so `require_master` also passes and the effective scope is just the
master display filter. -/
theorem auth_disabled_master_access (ttl : Int)
    (sessions : List (String × SessionData)) (now : Int)
    (cookie : Option String) (M : Finset Int) :
    require_auth false ttl sessions now cookie
      = (Except.ok ⟨"anonymous", "master", none⟩, sessions) ∧
    require_master ⟨"anonymous", "master", none⟩
      = Except.ok ⟨"anonymous", "master", none⟩ ∧
    get_user_chat_ids M ⟨"anonymous", "master", none⟩
      = master_display_filter M := by
  refine ⟨rfl, ?_, ?_⟩
  · simp [require_master]
  · simp [get_user_chat_ids]

/-- C5 counterexample: the request path `"a/../b"` contains the segment
`".."`, yet the media endpoint does not reject it with 403 Forbidden — the
path resolves back inside the media root and yields 404 for an absent
file. -/
theorem media_traversal_counterexample :
    (".." ∈ ["a", "..", "b"]) ∧
    serve_media [] none ["a", "..", "b"] = MediaResult.notFound ∧
    MediaResult.notFound ≠ MediaResult.forbidden := by decide

/-- C5 amended: every requested path whose canonical resolution lies
outside the media root is rejected with 403 regardless of file existence
(merely containing `..` is not sufficient for rejection), and 404 is
returned only for paths resolving inside the root whose file is absent. -/
theorem media_traversal_amended (files : List (List String))
    (scope : Option (Finset Int)) (path : List String) :
    (resolve_under_root path = none →
      serve_media files scope path = MediaResult.forbidden) ∧
    (serve_media files scope path = MediaResult.notFound →
      ∃ r, resolve_under_root path = some r ∧ r ∉ files) := by
  constructor
  · intro h
    unfold serve_media
    rw [h]
  · intro h
    unfold serve_media at h
    cases hr : resolve_under_root path with
    | none => rw [hr] at h; exact absurd h (by simp)
    | some r =>
      rw [hr] at h
      refine ⟨r, rfl, ?_⟩
      intro hmem
      simp only [if_pos hmem] at h
      split at h <;> simp_all

/-- Witness for C5 amended: `".."` alone escapes the root and is rejected
with 403; the in-root path `"a"` with no file present yields the
404 case. -/
theorem media_traversal_amended_witness :
    serve_media [] none [".."] = MediaResult.forbidden ∧
    ∃ r, resolve_under_root ["a"] = some r ∧ r ∉ ([] : List (List String)) :=
  ⟨(media_traversal_amended [] none [".."]).1 (by decide),
   (media_traversal_amended [] none ["a"]).2 (by decide)⟩

/-- C6 counterexample: a session created at `t₀ = 0` still validates at
exactly `t = t₀ + AUTH_SESSION_SECONDS` (30 days = 2592000 s), because the
code rejects only strictly after the TTL (`>`, line 490 of
`src/src/web/main.py`), while the claim requires rejection at the
boundary. -/
theorem session_ttl_counterexample :
    (require_auth true 2592000 [("tok", ⟨"alice", "viewer", none, 0, 0⟩)]
        2592000 (some "tok")).1
      = Except.ok ⟨"alice", "viewer", none⟩ ∧
    (2592000 : Int) - 0 ≥ 2592000 :=
  ⟨rfl, by decide⟩

/-- C6 amended: a session created at `t₀` validates (returning the caller
context and updating `last_accessed`) for every `t` with
`t - t₀ ≤ AUTH_SESSION_SECONDS` — boundary included — and fails with
Unauthenticated (401, session deleted) for every `t` with
`t - t₀ > AUTH_SESSION_SECONDS`. -/
theorem session_ttl_amended (ttl t0 t : Int)
    (sessions : List (String × SessionData)) (tok : String) (sd : SessionData)
    (htok : tok ≠ "") (hget : dictGet sessions tok = some sd)
    (hc : sd.created_at = t0) :
    (t - t0 ≤ ttl →
      require_auth true ttl sessions t (some tok)
        = (Except.ok ⟨sd.username, sd.role, sd.allowed_chat_ids⟩,
           dictSet sessions tok { sd with last_accessed := t })) ∧
    (ttl < t - t0 →
      require_auth true ttl sessions t (some tok)
        = (Except.error (401, "Session expired"), dictDel sessions tok)) := by
  subst hc
  constructor <;> intro h <;> unfold require_auth <;>
    simp [htok, hget, h, not_lt.mpr]

/-- Witness for C6 amended: with TTL 2592000 and a session created at 0,
validation at `t = 2592000` succeeds and validation at `t = 2592001`
fails. -/
theorem session_ttl_amended_witness :
    require_auth true 2592000 [("tok", ⟨"alice", "viewer", none, 0, 7⟩)]
        2592000 (some "tok")
      = (Except.ok ⟨"alice", "viewer", none⟩,
         dictSet [("tok", ⟨"alice", "viewer", none, 0, 7⟩)] "tok"
           ⟨"alice", "viewer", none, 0, 2592000⟩) ∧
    require_auth true 2592000 [("tok", ⟨"alice", "viewer", none, 0, 7⟩)]
        2592001 (some "tok")
      = (Except.error (401, "Session expired"),
         dictDel [("tok", ⟨"alice", "viewer", none, 0, 7⟩)] "tok") :=
  ⟨(session_ttl_amended 2592000 0 2592000
      [("tok", ⟨"alice", "viewer", none, 0, 7⟩)] "tok"
      ⟨"alice", "viewer", none, 0, 7⟩ (by decide) rfl rfl).1 (by decide),
   (session_ttl_amended 2592000 0 2592001
      [("tok", ⟨"alice", "viewer", none, 0, 7⟩)] "tok"
      ⟨"alice", "viewer", none, 0, 7⟩ (by decide) rfl rfl).2 (by decide)⟩

/-- C10: at login, a viewer account whose stored `allowed_chat_ids` value
is non-empty but fails to parse as JSON gets a session with
`allowed_chat_ids = None`, i.e. unrestricted scope (subject only to the
master display filter), rather than a rejection or an empty scope. -/
theorem malformed_scope_widens (env : LoginEnv) (st : WebState) (now : Int)
    (ip u p ua tok : String) (v : ViewerRow) (s : String)
    (hauth : env.authEnabled = true)
    (hdb : env.dbPresent = true)
    (hv : env.viewers u = some v)
    (hactive : v.is_active = true)
    (hpw : env.pbkdf2 p v.salt = v.password_hash)
    (hcol : v.allowed_chat_ids = some s)
    (hs : s ≠ "")
    (hparse : env.jsonParse s = none)
    (hu : u ≠ "") (hp : p ≠ "")
    (hattempts : st.login_attempts = [])
    (hsessions : st.sessions = []) :
    (login env st now ip (some (u, p)) ua tok).1.status = 200 ∧
    (login env st now ip (some (u, p)) ua tok).1.role = some "viewer" ∧
    dictGet (login env st now ip (some (u, p)) ua tok).2.sessions tok
      = some ⟨u, "viewer", none, now, now⟩ := by
  unfold login
  simp [hauth, hdb, hv, hactive, hpw, hu, hp, hattempts, hsessions,
    check_rate_limit, create_session, parse_allowed_chat_ids, hcol, hs, hparse,
    dictGet, dictSet, LOGIN_RATE_LIMIT, MAX_SESSIONS_PER_USER]

/-- Witness for C10: viewer `bob` with the unparsable scope column
`"[broken"` logs in successfully and the created session is
unrestricted. -/
theorem malformed_scope_widens_witness :
    (login
        ⟨true, "admin", "pw", true,
         (fun x => if x = "bob" then some ⟨"bob", "h", "salt", some "[broken", true⟩
                   else none),
         (fun _ _ => "h"), (fun _ => none)⟩
        ⟨[], [], []⟩ 1700000000 "10.0.0.5" (some ("bob", "secret1."))
        "UA" "tok1").1.status = 200 ∧
    (login
        ⟨true, "admin", "pw", true,
         (fun x => if x = "bob" then some ⟨"bob", "h", "salt", some "[broken", true⟩
                   else none),
         (fun _ _ => "h"), (fun _ => none)⟩
        ⟨[], [], []⟩ 1700000000 "10.0.0.5" (some ("bob", "secret1."))
        "UA" "tok1").1.role = some "viewer" ∧
    dictGet (login
        ⟨true, "admin", "pw", true,
         (fun x => if x = "bob" then some ⟨"bob", "h", "salt", some "[broken", true⟩
                   else none),
         (fun _ _ => "h"), (fun _ => none)⟩
        ⟨[], [], []⟩ 1700000000 "10.0.0.5" (some ("bob", "secret1."))
        "UA" "tok1").2.sessions "tok1"
      = some ⟨"bob", "viewer", none, 1700000000, 1700000000⟩ :=
  malformed_scope_widens
    ⟨true, "admin", "pw", true,
     (fun x => if x = "bob" then some ⟨"bob", "h", "salt", some "[broken", true⟩
               else none),
     (fun _ _ => "h"), (fun _ => none)⟩
    ⟨[], [], []⟩ 1700000000 "10.0.0.5" "bob" "secret1." "UA" "tok1"
    ⟨"bob", "h", "salt", some "[broken", true⟩ "[broken"
    rfl rfl (by simp) rfl rfl rfl (by decide) rfl (by decide) (by decide)
    rfl rfl

/-- The audit row written by the failed-login branch of `login`. -/
def loginFailedEntry (u ip ua : String) : AuditEntry :=
  ⟨u, "unknown", "login_failed", "/api/login", ip, ua.take 500⟩

/-- A failing login attempt within the rate limit: 401, the attempt is
recorded, and a `login_failed` audit row is appended. -/
theorem login_failed_step (env : LoginEnv)
    (sessions0 : List (String × SessionData)) (audit0 : List AuditEntry)
    (now : Int) (ip u p ua tok : String) (prev : List Int)
    (hauth : env.authEnabled = true) (hdb : env.dbPresent = true)
    (hnoviewer : env.viewers u = none)
    (hmaster : ¬(u = env.masterUsername ∧ p = env.masterPassword))
    (hu : u ≠ "") (hp : p ≠ "")
    (hkeep : ∀ x ∈ prev, now - x < LOGIN_RATE_WINDOW)
    (hlen : prev.length < LOGIN_RATE_LIMIT) :
    login env ⟨sessions0, [(ip, prev)], audit0⟩ now ip (some (u, p)) ua tok
      = (⟨401, none, none⟩,
         ⟨sessions0, [(ip, prev ++ [now])],
          audit0 ++ [loginFailedEntry u ip ua]⟩) := by
  have hfilter : prev.filter (fun t => decide (now - t < LOGIN_RATE_WINDOW)) = prev :=
    List.filter_eq_self.mpr (fun x hx => decide_eq_true (hkeep x hx))
  unfold login check_rate_limit loginFailedEntry
  simp [hauth, hdb, hnoviewer, hmaster, hu, hp, dictGet, dictSet, hfilter, hlen]

/-- A login attempt past the rate limit: 429, nothing recorded, nothing
audited, state unchanged. -/
theorem login_rate_limited_step (env : LoginEnv)
    (sessions0 : List (String × SessionData)) (audit0 : List AuditEntry)
    (now : Int) (ip u p ua tok : String) (prev : List Int)
    (hauth : env.authEnabled = true)
    (hkeep : ∀ x ∈ prev, now - x < LOGIN_RATE_WINDOW)
    (hlen : LOGIN_RATE_LIMIT ≤ prev.length) :
    login env ⟨sessions0, [(ip, prev)], audit0⟩ now ip (some (u, p)) ua tok
      = (⟨429, none, none⟩, ⟨sessions0, [(ip, prev)], audit0⟩) := by
  have hfilter : prev.filter (fun t => decide (now - t < LOGIN_RATE_WINDOW)) = prev :=
    List.filter_eq_self.mpr (fun x hx => decide_eq_true (hkeep x hx))
  unfold login check_rate_limit
  simp [hauth, dictGet, dictSet, hfilter, Nat.not_lt.mpr hlen]

/-- `login` treats an absent `_login_attempts` entry for the client IP
like an empty one. -/
theorem login_attempts_empty (env : LoginEnv)
    (sessions0 : List (String × SessionData)) (audit0 : List AuditEntry)
    (now : Int) (ip : String) (body : Option (String × String)) (ua tok : String)
    (hauth : env.authEnabled = true) :
    login env ⟨sessions0, [], audit0⟩ now ip body ua tok
      = login env ⟨sessions0, [(ip, [])], audit0⟩ now ip body ua tok := by
  unfold login check_rate_limit
  simp [hauth, dictGet, dictSet]

/-- Accumulator independence of the status list built by `runLogins`. -/
theorem runLogins_acc (env : LoginEnv) (ip u p ua tok : String) (ts : List Int) :
    ∀ (a : List Nat) (st : WebState),
      ts.foldl
        (fun acc t =>
          let (r, st') := login env acc.2 t ip (some (u, p)) ua tok
          (acc.1 ++ [r.status], st'))
        (a, st)
      = (a ++ (runLogins env st ip u p ua tok ts).1,
         (runLogins env st ip u p ua tok ts).2) := by
  induction ts with
  | nil => intro a st; simp [runLogins]
  | cons t ts ih =>
    intro a st
    rw [List.foldl_cons]
    show ts.foldl _ (a ++ [(login env st t ip (some (u, p)) ua tok).1.status],
      (login env st t ip (some (u, p)) ua tok).2) = _
    rw [ih]
    unfold runLogins
    rw [List.foldl_cons]
    show _ = (a ++ (ts.foldl _ ([] ++ [(login env st t ip (some (u, p)) ua tok).1.status],
      (login env st t ip (some (u, p)) ua tok).2)).1, _)
    rw [ih ([] ++ [(login env st t ip (some (u, p)) ua tok).1.status])
      (login env st t ip (some (u, p)) ua tok).2]
    simp [runLogins]

/-- Every attempt of an in-window all-failing sequence is answered 401,
recorded, and audited, as long as the rate limit is not exceeded. -/
theorem runLogins_all_failed (env : LoginEnv) (ip u p ua tok : String) (t1 : Int)
    (hauth : env.authEnabled = true) (hdb : env.dbPresent = true)
    (hnoviewer : env.viewers u = none)
    (hmaster : ¬(u = env.masterUsername ∧ p = env.masterPassword))
    (hu : u ≠ "") (hp : p ≠ "") :
    ∀ (ts prev : List Int) (sessions0 : List (String × SessionData))
      (audit0 : List AuditEntry),
      (∀ x ∈ prev, t1 ≤ x ∧ x < t1 + LOGIN_RATE_WINDOW) →
      (∀ x ∈ ts, t1 ≤ x ∧ x < t1 + LOGIN_RATE_WINDOW) →
      prev.length + ts.length ≤ LOGIN_RATE_LIMIT →
      runLogins env ⟨sessions0, [(ip, prev)], audit0⟩ ip u p ua tok ts
        = (List.replicate ts.length 401,
           ⟨sessions0, [(ip, prev ++ ts)],
            audit0 ++ List.replicate ts.length (loginFailedEntry u ip ua)⟩) := by
  intro ts
  induction ts with
  | nil => intro prev sessions0 audit0 _ _ _; simp [runLogins]
  | cons t ts ih =>
    intro prev sessions0 audit0 hprev hts hcount
    have hkeep : ∀ x ∈ prev, t - x < LOGIN_RATE_WINDOW := by
      intro x hx
      have h1 := hprev x hx
      have h2 := hts t (List.mem_cons_self t ts)
      omega
    have hplen : prev.length < LOGIN_RATE_LIMIT := by
      simp only [List.length_cons] at hcount; omega
    unfold runLogins
    rw [List.foldl_cons]
    show ts.foldl _ ([] ++ [(login env ⟨sessions0, [(ip, prev)], audit0⟩ t ip
      (some (u, p)) ua tok).1.status],
      (login env ⟨sessions0, [(ip, prev)], audit0⟩ t ip (some (u, p)) ua tok).2) = _
    rw [login_failed_step env sessions0 audit0 t ip u p ua tok prev hauth hdb
      hnoviewer hmaster hu hp hkeep hplen]
    rw [runLogins_acc]
    rw [ih (prev ++ [t]) sessions0 (audit0 ++ [loginFailedEntry u ip ua])
      (by intro x hx
          rcases List.mem_append.mp hx with h | h
          · exact hprev x h
          · rcases List.mem_singleton.mp h with rfl
            exact hts x (List.mem_cons_self x ts))
      (by intro x hx; exact hts x (List.mem_cons_of_mem t hx))
      (by simp only [List.length_append, List.length_singleton, List.length_nil,
            List.length_cons] at hcount ⊢; omega)]
    simp [List.replicate_succ, List.append_assoc]

/-- C7: Rate-limit exactness — from one IP, 15 (= `LOGIN_RATE_LIMIT`)
failing login attempts within one 300 s (= `LOGIN_RATE_WINDOW`) window are
all processed: each returns 401, is recorded in `_login_attempts`, and
writes a `login_failed` audit entry; the 16-th attempt in the window
returns 429 (RateLimited) without recording a new attempt timestamp and
without writing another audit entry. -/
theorem rate_limit_exactness (env : LoginEnv)
    (sessions0 : List (String × SessionData)) (audit0 : List AuditEntry)
    (ip u p ua tok : String) (t1 t16 : Int) (ts : List Int)
    (hauth : env.authEnabled = true) (hdb : env.dbPresent = true)
    (hnoviewer : env.viewers u = none)
    (hmaster : ¬(u = env.masterUsername ∧ p = env.masterPassword))
    (hu : u ≠ "") (hp : p ≠ "")
    (hlen : ts.length = LOGIN_RATE_LIMIT)
    (hwin : ∀ x ∈ ts, t1 ≤ x ∧ x < t1 + LOGIN_RATE_WINDOW)
    (hw16 : t1 ≤ t16 ∧ t16 < t1 + LOGIN_RATE_WINDOW) :
    runLogins env ⟨sessions0, [], audit0⟩ ip u p ua tok (ts ++ [t16])
      = (List.replicate LOGIN_RATE_LIMIT 401 ++ [429],
         ⟨sessions0, [(ip, ts)],
          audit0 ++ List.replicate LOGIN_RATE_LIMIT (loginFailedEntry u ip ua)⟩) := by
  have hts0 : ts ≠ [] := by
    intro h; rw [h] at hlen; simp [LOGIN_RATE_LIMIT] at hlen
  have hstart : runLogins env ⟨sessions0, [], audit0⟩ ip u p ua tok (ts ++ [t16])
      = runLogins env ⟨sessions0, [(ip, [])], audit0⟩ ip u p ua tok (ts ++ [t16]) := by
    rcases ts with _ | ⟨t, ts'⟩
    · exact absurd rfl hts0
    · unfold runLogins
      rw [List.cons_append, List.foldl_cons, List.foldl_cons,
        login_attempts_empty env sessions0 audit0 t ip (some (u, p)) ua tok hauth]
  rw [hstart]
  unfold runLogins
  rw [List.foldl_append]
  have hmain := runLogins_all_failed env ip u p ua tok t1 hauth hdb hnoviewer
    hmaster hu hp ts [] sessions0 audit0 (by intro x hx; simp at hx)
    hwin (by simp [hlen])
  unfold runLogins at hmain
  rw [hmain]
  rw [List.foldl_cons]
  show ([].foldl _ (List.replicate ts.length 401 ++
    [(login env ⟨sessions0, [(ip, [] ++ ts)], audit0 ++ List.replicate ts.length
      (loginFailedEntry u ip ua)⟩ t16 ip (some (u, p)) ua tok).1.status],
    (login env ⟨sessions0, [(ip, [] ++ ts)], audit0 ++ List.replicate ts.length
      (loginFailedEntry u ip ua)⟩ t16 ip (some (u, p)) ua tok).2)) = _
  rw [login_rate_limited_step env sessions0
    (audit0 ++ List.replicate ts.length (loginFailedEntry u ip ua)) t16 ip u p ua tok
    ([] ++ ts) hauth
    (by intro x hx
        simp only [List.nil_append] at hx
        obtain ⟨hx1, hx2⟩ := hwin x hx
        obtain ⟨h161, h162⟩ := hw16
        omega)
    (by simp only [List.nil_append, hlen]; exact le_refl _)]
  simp [hlen]

/-- Witness for C7: 15 failing attempts from `10.0.0.5` at t = 0..14 all
return 401, the 16-th at t = 15 returns 429 and leaves the state
untouched. -/
theorem rate_limit_exactness_witness :
    runLogins ⟨true, "admin", "pw", true, (fun _ => none), (fun _ _ => ""),
        (fun _ => none)⟩
      ⟨[], [], []⟩ "10.0.0.5" "admin" "wrong" "UA" "t"
      ([0, 1, 2, 3, 4, 5, 6, 7, 8, 9, 10, 11, 12, 13, 14] ++ [15])
      = (List.replicate LOGIN_RATE_LIMIT 401 ++ [429],
         ⟨[], [("10.0.0.5", [0, 1, 2, 3, 4, 5, 6, 7, 8, 9, 10, 11, 12, 13, 14])],
          [] ++ List.replicate LOGIN_RATE_LIMIT
            (loginFailedEntry "admin" "10.0.0.5" "UA")⟩) :=
  rate_limit_exactness
    ⟨true, "admin", "pw", true, (fun _ => none), (fun _ _ => ""), (fun _ => none)⟩
    [] [] "10.0.0.5" "admin" "wrong" "UA" "t" 0 15
    [0, 1, 2, 3, 4, 5, 6, 7, 8, 9, 10, 11, 12, 13, 14]
    rfl rfl rfl (by decide) (by decide) (by decide) (by decide)
    (by decide) (by decide)

/-- Unfolding lemma: queueing a batch head first. -/
theorem queueMany_cons (s : ProtectorState) (c : Int) (ot : String)
    (x : Int × OpData) (xs : List (Int × OpData)) :
    queueMany s c ot (x :: xs)
      = queueMany (queue_operation s x.1 c ot x.2).2 c ot xs := rfl

/-- Unfolding lemma: queueing a batch head first, with the head step's
result supplied. -/
theorem queueMany_cons_step (s s' : ProtectorState) (r : Bool × String)
    (c : Int) (ot : String) (x : Int × OpData) (xs : List (Int × OpData))
    (h : queue_operation s x.1 c ot x.2 = (r, s')) :
    queueMany s c ot (x :: xs) = queueMany s' c ot xs := by
  rw [queueMany_cons, h]

/-- Unfolding lemma: queueing the empty batch. -/
theorem queueMany_nil (s : ProtectorState) (c : Int) (ot : String) :
    queueMany s c ot [] = s := rfl

/-- A queue step below threshold for an unblocked chat: the operation is
appended to the chat's pending buffer and nothing else changes. -/
theorem queue_step_noburst (T : Nat) (W D : Int) (c : Int) (ot : String)
    (a0 d0 b0 : Nat) (cp : List Int) (acc : List PendingOperation)
    (t : Int) (d : OpData) (h : acc.length + 1 < T) :
    queue_operation ⟨T, W, D, [(c, acc)], [], a0, d0, b0, cp⟩ t c ot d
      = ((true, "queued"),
         ⟨T, W, D, [(c, acc ++ [⟨c, ot, t, d⟩])], [], a0, d0, b0, cp⟩) := by
  have hle : ¬ (T ≤ acc.length + 1) := by omega
  unfold queue_operation is_blocked
  simp [dictGet, dictSet, hle]

/-- A queue step reaching the threshold: the whole buffer is discarded,
the chat is blocked until `t + W`, and the statistics are bumped. -/
theorem queue_step_burst (T : Nat) (W D : Int) (c : Int) (ot : String)
    (a0 d0 b0 : Nat) (cp : List Int) (acc : List PendingOperation)
    (t : Int) (d : OpData) (h : T ≤ acc.length + 1) :
    queue_operation ⟨T, W, D, [(c, acc)], [], a0, d0, b0, cp⟩ t c ot d
      = ((false, burstReason (acc.length + 1) ot),
         ⟨T, W, D, [],
          [(c, ⟨t + W, burstReason (acc.length + 1) ot, acc.length + 1⟩)],
          a0, d0 + (acc.length + 1), b0 + 1, addProtected cp c⟩) := by
  unfold queue_operation is_blocked
  simp [dictGet, dictSet, dictDel, h]

/-- A queue step against an armed block: the operation is rejected and only
the discard counter moves. -/
theorem queue_step_blocked (T : Nat) (W D : Int) (c : Int) (ot : String)
    (a0 d0 b0 : Nat) (cp : List Int) (bi : BlockInfo) (t : Int) (d : OpData)
    (h : t < bi.blocked_until) :
    queue_operation ⟨T, W, D, [], [(c, bi)], a0, d0, b0, cp⟩ t c ot d
      = ((false, "BLOCKED: " ++ bi.reason),
         ⟨T, W, D, [], [(c, bi)], a0, d0 + 1, b0, cp⟩) := by
  unfold queue_operation is_blocked
  simp [dictGet, h]

/-- Queueing behaves the same whether the chat's pending entry is absent or
present and empty. -/
theorem queue_step_nil_pending (T : Nat) (W D : Int) (c : Int) (ot : String)
    (a0 d0 b0 : Nat) (cp : List Int) (t : Int) (d : OpData) :
    queue_operation ⟨T, W, D, [], [], a0, d0, b0, cp⟩ t c ot d
      = queue_operation ⟨T, W, D, [(c, [])], [], a0, d0, b0, cp⟩ t c ot d := by
  unfold queue_operation is_blocked
  simp [dictGet, dictSet, dictDel]

/-- Queueing a below-threshold batch for one unblocked chat just extends
its pending buffer, in arrival order. -/
theorem queueMany_fill (T : Nat) (W D : Int) (c : Int) (ot : String)
    (a0 d0 b0 : Nat) (cp : List Int) (xs : List (Int × OpData)) :
    ∀ acc : List PendingOperation, acc.length + xs.length < T →
    queueMany ⟨T, W, D, [(c, acc)], [], a0, d0, b0, cp⟩ c ot xs
      = ⟨T, W, D, [(c, acc ++ xs.map (fun it => ⟨c, ot, it.1, it.2⟩))], [],
         a0, d0, b0, cp⟩ := by
  induction xs with
  | nil => intro acc h; simp [queueMany_nil]
  | cons x xs ih =>
    intro acc h
    simp only [List.length_cons] at h
    rw [queueMany_cons_step _ _ _ _ _ _ _
      (queue_step_noburst T W D c ot a0 d0 b0 cp acc x.1 x.2 (by omega))]
    rw [ih (acc ++ [(⟨c, ot, x.1, x.2⟩ : PendingOperation)]) (by simp; omega)]
    simp

/-- Queueing a batch for a blocked chat rejects every event and counts each
one as discarded. -/
theorem queueMany_blocked (T : Nat) (W D : Int) (c : Int) (ot : String)
    (a0 b0 : Nat) (cp : List Int) (bi : BlockInfo) (ys : List (Int × OpData)) :
    ∀ d0 : Nat, (∀ y ∈ ys, y.1 < bi.blocked_until) →
    queueMany ⟨T, W, D, [], [(c, bi)], a0, d0, b0, cp⟩ c ot ys
      = ⟨T, W, D, [], [(c, bi)], a0, d0 + ys.length, b0, cp⟩ := by
  induction ys with
  | nil => intro d0 _; simp [queueMany_nil]
  | cons y ys ih =>
    intro d0 h
    rw [queueMany_cons_step _ _ _ _ _ _ _
      (queue_step_blocked T W D c ot a0 d0 b0 cp bi y.1 y.2
        (h y (List.mem_cons_self y ys)))]
    rw [ih (d0 + 1) (fun z hz => h z (List.mem_cons_of_mem y hz))]
    simp [ProtectorState.mk.injEq]
    omega

/-- `process_pending` on a state with an empty pending table does nothing. -/
theorem process_pending_nil (s : ProtectorState) (tq : Int) (h : s.pending = []) :
    process_pending s tq = ([], s) := by
  unfold process_pending
  rw [h]
  simp

/-- Starting from an entirely empty pending table is equivalent to
starting from an empty buffer for the chat, for any non-empty batch. -/
theorem queueMany_start_nil (T : Nat) (W D : Int) (c : Int) (ot : String)
    (a0 d0 b0 : Nat) (cp : List Int) (zs : List (Int × OpData)) (hne : zs ≠ []) :
    queueMany ⟨T, W, D, [], [], a0, d0, b0, cp⟩ c ot zs
      = queueMany ⟨T, W, D, [(c, [])], [], a0, d0, b0, cp⟩ c ot zs := by
  rcases zs with _ | ⟨z, zs⟩
  · exact absurd rfl hne
  · rw [queueMany_cons, queueMany_cons,
      queue_step_nil_pending T W D c ot a0 d0 b0 cp z.1 z.2]

/-- Shared shape of a burst run: queueing `N ≥ threshold` events for one
chat within the buffer delay, starting from empty protector tables, ends
with an empty pending table, a block record carrying the detection time
plus the window and the threshold as its discard count, and the counters
moved by one burst and `N` discards. -/
theorem queueMany_burst_shape (T : Nat) (W D : Int) (c : Int) (ot : String)
    (items : List (Int × OpData)) (a0 d0 b0 : Nat) (cp : List Int) (t1 : Int)
    (hT : 1 ≤ T) (hDW : D ≤ W) (hN : T ≤ items.length)
    (hspan : ∀ x ∈ items, t1 ≤ x.1 ∧ x.1 < t1 + D)
    (hT1 : T - 1 < items.length) :
    queueMany ⟨T, W, D, [], [], a0, d0, b0, cp⟩ c ot items
      = ⟨T, W, D, [],
         [(c, ⟨(items.get ⟨T - 1, hT1⟩).1 + W, burstReason T ot, T⟩)],
         a0, d0 + items.length, b0 + 1, addProtected cp c⟩ := by
  have hdecomp : items
      = items.take (T - 1) ++ (items.get ⟨T - 1, hT1⟩ :: items.drop T) := by
    have h1 : items.drop (T - 1) = items.get ⟨T - 1, hT1⟩ :: items.drop T := by
      rw [List.drop_eq_getElem_cons hT1]
      have h2 : T - 1 + 1 = T := by omega
      rw [h2]
      simp [List.get_eq_getElem]
    rw [← h1, List.take_append_drop]
  have hxslen : (items.take (T - 1)).length = T - 1 := by
    rw [List.length_take]; omega
  have hmem_m : items.get ⟨T - 1, hT1⟩ ∈ items := List.get_mem items (T - 1) hT1
  have hmem_ys : ∀ y ∈ items.drop T, y ∈ items := by
    intro y hy
    have h2 : y ∈ items.take (T - 1) ++ (items.get ⟨T - 1, hT1⟩ :: items.drop T) :=
      List.mem_append_right _ (List.mem_cons_of_mem _ hy)
    rw [← hdecomp] at h2
    exact h2
  have hylt : ∀ y ∈ items.drop T, y.1 < (items.get ⟨T - 1, hT1⟩).1 + W := by
    intro y hy
    obtain ⟨hy1, hy2⟩ := hspan y (hmem_ys y hy)
    obtain ⟨hm1, _⟩ := hspan _ hmem_m
    omega
  have hitemslen : items.length = (T - 1) + 1 + (items.drop T).length := by
    conv_lhs => rw [hdecomp]
    simp [hxslen]
    omega
  have hne : items ≠ [] := by
    intro h
    rw [h] at hN
    simp at hN
    omega
  rw [queueMany_start_nil T W D c ot a0 d0 b0 cp items hne]
  conv_lhs => rw [hdecomp]
  have hsplit : queueMany ⟨T, W, D, [(c, [])], [], a0, d0, b0, cp⟩ c ot
      (items.take (T - 1) ++ (items.get ⟨T - 1, hT1⟩ :: items.drop T))
      = queueMany
          (queueMany ⟨T, W, D, [(c, [])], [], a0, d0, b0, cp⟩ c ot
            (items.take (T - 1)))
          c ot (items.get ⟨T - 1, hT1⟩ :: items.drop T) := by
    unfold queueMany
    rw [List.foldl_append]
  rw [hsplit]
  rw [queueMany_fill T W D c ot a0 d0 b0 cp (items.take (T - 1)) []
    (by simp only [List.length_nil, hxslen]; omega)]
  have hmap : (([] : List PendingOperation) ++
      (items.take (T - 1)).map
        (fun it => (⟨c, ot, it.1, it.2⟩ : PendingOperation))).length = T - 1 := by
    simp only [List.nil_append, List.length_map, hxslen]
  rw [queueMany_cons_step _ _ _ _ _ _ _
    (queue_step_burst T W D c ot a0 d0 b0 cp
      ([] ++ (items.take (T - 1)).map
        (fun it => (⟨c, ot, it.1, it.2⟩ : PendingOperation)))
      (items.get ⟨T - 1, hT1⟩).1 (items.get ⟨T - 1, hT1⟩).2
      (by rw [hmap]; omega))]
  rw [hmap]
  have hTm : T - 1 + 1 = T := by omega
  rw [hTm]
  rw [queueMany_blocked T W D c ot a0 (b0 + 1) (addProtected cp c)
    ⟨(items.get ⟨T - 1, hT1⟩).1 + W, burstReason T ot, T⟩ (items.drop T)
    (d0 + T) hylt]
  have harith : d0 + T + (items.drop T).length = d0 + items.length := by omega
  rw [harith]

/-- C1: Zero-footprint under burst — if `N ≥ threshold` mutation events
for one chat are queued within `buffer_delay` seconds of each other
(starting from empty protector tables, so none has been released when the
last one arrives), then the applied counter does not move at all, exactly
one burst is detected, exactly `N` operations are counted discarded, the
chat's pending buffer is completely gone, and a subsequent release tick at
any time returns no operation to apply. -/
theorem zero_footprint_under_burst (T : Nat) (W D : Int) (c : Int) (ot : String)
    (items : List (Int × OpData)) (a0 d0 b0 : Nat) (cp : List Int) (t1 tq : Int)
    (hT : 1 ≤ T) (hDW : D ≤ W) (hN : T ≤ items.length)
    (hspan : ∀ x ∈ items, t1 ≤ x.1 ∧ x.1 < t1 + D) :
    (queueMany ⟨T, W, D, [], [], a0, d0, b0, cp⟩ c ot items).pending = [] ∧
    (queueMany ⟨T, W, D, [], [], a0, d0, b0, cp⟩ c ot items).operations_applied
      = a0 ∧
    (queueMany ⟨T, W, D, [], [], a0, d0, b0, cp⟩ c ot items).operations_discarded
      = d0 + items.length ∧
    (queueMany ⟨T, W, D, [], [], a0, d0, b0, cp⟩ c ot items).bursts_detected
      = b0 + 1 ∧
    (process_pending (queueMany ⟨T, W, D, [], [], a0, d0, b0, cp⟩ c ot items)
      tq).1 = [] := by
  have hT1 : T - 1 < items.length := by omega
  rw [queueMany_burst_shape T W D c ot items a0 d0 b0 cp t1 hT hDW hN hspan hT1]
  refine ⟨rfl, rfl, rfl, rfl, ?_⟩
  rw [process_pending_nil _ tq rfl]

/-- Witness for C1 at scenario S1: threshold 5, window 10 s, buffer delay
2 s, six edits for chat `-1001` at `t = 0`. -/
theorem zero_footprint_under_burst_witness :
    (queueMany ⟨5, 10, 2, [], [], 0, 0, 0, []⟩ (-1001) "edit"
        (List.replicate 6 ((0 : Int), OpData.edit 1 "x" none))).pending = [] ∧
    (queueMany ⟨5, 10, 2, [], [], 0, 0, 0, []⟩ (-1001) "edit"
        (List.replicate 6 ((0 : Int), OpData.edit 1 "x" none))).operations_applied
      = 0 ∧
    (queueMany ⟨5, 10, 2, [], [], 0, 0, 0, []⟩ (-1001) "edit"
        (List.replicate 6 ((0 : Int), OpData.edit 1 "x" none))).operations_discarded
      = 0 + (List.replicate 6 ((0 : Int), OpData.edit 1 "x" none)).length ∧
    (queueMany ⟨5, 10, 2, [], [], 0, 0, 0, []⟩ (-1001) "edit"
        (List.replicate 6 ((0 : Int), OpData.edit 1 "x" none))).bursts_detected
      = 0 + 1 ∧
    (process_pending (queueMany ⟨5, 10, 2, [], [], 0, 0, 0, []⟩ (-1001) "edit"
        (List.replicate 6 ((0 : Int), OpData.edit 1 "x" none))) 3).1 = [] :=
  zero_footprint_under_burst 5 10 2 (-1001) "edit"
    (List.replicate 6 ((0 : Int), OpData.edit 1 "x" none)) 0 0 0 [] 0 3
    (by decide) (by decide) (by decide) (by decide)

/-- C3 counterexample (scenario S1): six edit events against threshold 5
produce a block record whose discarded count is 5, the pending size at
detection — not 6, the total number of events, as the claim states. -/
theorem block_record_counterexample :
    (dictGet (queueMany ⟨5, 10, 2, [], [], 0, 0, 0, []⟩ (-1001) "edit"
        (List.replicate 6 ((0 : Int), OpData.edit 1 "x" none))).blocked
      (-1001)).map (fun bi => bi.discarded) = some 5 ∧
    some 5 ≠ some (6 : Nat) := by
  constructor
  · rfl
  · decide

/-- C3 amended: when a burst for chat `c` is detected at time `t` (the
arrival of the `threshold`-th buffered event) after `N ≥ threshold` events
(the ones past the threshold rejected at queue time), the block table maps
`c` to a record with `blocked_until = t + window_seconds` and a discarded
count equal to `threshold` (the buffer size cleared at detection), while
the discarded statistic counts all `N`. -/
theorem block_record_after_burst (T : Nat) (W D : Int) (c : Int) (ot : String)
    (items : List (Int × OpData)) (a0 d0 b0 : Nat) (cp : List Int) (t1 : Int)
    (hT : 1 ≤ T) (hDW : D ≤ W) (hN : T ≤ items.length)
    (hspan : ∀ x ∈ items, t1 ≤ x.1 ∧ x.1 < t1 + D) :
    dictGet (queueMany ⟨T, W, D, [], [], a0, d0, b0, cp⟩ c ot items).blocked c
      = some ⟨(items.getD (T - 1) (0, OpData.deletion 0 0)).1 + W,
              burstReason T ot, T⟩ ∧
    (queueMany ⟨T, W, D, [], [], a0, d0, b0, cp⟩ c ot items).operations_discarded
      = d0 + items.length := by
  have hT1 : T - 1 < items.length := by omega
  rw [queueMany_burst_shape T W D c ot items a0 d0 b0 cp t1 hT hDW hN hspan hT1]
  refine ⟨?_, rfl⟩
  have hgd : items.getD (T - 1) (0, OpData.deletion 0 0)
      = items.get ⟨T - 1, hT1⟩ := by
    rw [List.getD_eq_getElem items _ hT1, List.get_eq_getElem]
  simp [dictGet, hgd, List.getElem?_eq_getElem hT1]

/-- Witness for C3 amended at scenario S1: six edits at `t = 0` against
threshold 5, window 10: the record is `(0 + 10, _, 5)` and the discarded
statistic is 6. -/
theorem block_record_after_burst_witness :
    dictGet (queueMany ⟨5, 10, 2, [], [], 0, 0, 0, []⟩ (-1001) "edit"
        (List.replicate 6 ((0 : Int), OpData.edit 1 "x" none))).blocked (-1001)
      = some ⟨((List.replicate 6 ((0 : Int), OpData.edit 1 "x" none)).getD 4
          (0, OpData.deletion 0 0)).1 + 10, burstReason 5 "edit", 5⟩ ∧
    (queueMany ⟨5, 10, 2, [], [], 0, 0, 0, []⟩ (-1001) "edit"
        (List.replicate 6 ((0 : Int), OpData.edit 1 "x" none))).operations_discarded
      = 0 + (List.replicate 6 ((0 : Int), OpData.edit 1 "x" none)).length :=
  block_record_after_burst 5 10 2 (-1001) "edit"
    (List.replicate 6 ((0 : Int), OpData.edit 1 "x" none)) 0 0 0 [] 0
    (by decide) (by decide) (by decide) (by decide)

/-- The second `_process_pending` loop passes every ready operation
through, in order, when no chat is blocked, counting each as applied. -/
theorem ppFilter_unblocked (tq : Int) (ops : List PendingOperation) :
    ∀ (res : List PendingOperation) (T : Nat) (W D : Int)
      (pend : List (Int × List PendingOperation)) (a0 d0 b0 : Nat)
      (cp : List Int),
    ops.foldl (ppFilter tq) (res, ⟨T, W, D, pend, [], a0, d0, b0, cp⟩)
      = (res ++ ops, ⟨T, W, D, pend, [], a0 + ops.length, d0, b0, cp⟩) := by
  induction ops with
  | nil => intro res T W D pend a0 d0 b0 cp; simp
  | cons op ops ih =>
    intro res T W D pend a0 d0 b0 cp
    rw [List.foldl_cons]
    have hstep : ppFilter tq (res, ⟨T, W, D, pend, [], a0, d0, b0, cp⟩) op
        = (res ++ [op], ⟨T, W, D, pend, [], a0 + 1, d0, b0, cp⟩) := by
      unfold ppFilter is_blocked
      simp [dictGet]
    rw [hstep, ih]
    simp [ProtectorState.mk.injEq]
    omega

/-- One release tick over a single unblocked chat whose buffered
operations are all older than the buffer delay: all of them are returned,
in buffer order, the buffer entry is dropped, and the applied counter
moves by their number. -/
theorem process_pending_single_all_ready (T : Nat) (W D : Int) (c : Int)
    (ops : List PendingOperation) (a0 d0 b0 : Nat) (cp : List Int) (tr : Int)
    (hne : ops ≠ [])
    (hready : ∀ op ∈ ops, op.timestamp < tr - D) :
    process_pending ⟨T, W, D, [(c, ops)], [], a0, d0, b0, cp⟩ tr
      = (ops, ⟨T, W, D, [], [], a0 + ops.length, d0, b0, cp⟩) := by
  have hfilter : ops.filter (fun op => decide (op.timestamp < tr - D)) = ops :=
    List.filter_eq_self.mpr (fun x hx => decide_eq_true (hready x hx))
  have hfilter2 : ops.filter (fun op => !(decide (op.timestamp < tr - D))) = [] := by
    rw [List.filter_eq_nil_iff]
    intro x hx
    simp [hready x hx]
  unfold process_pending
  simp only [List.map_cons, List.map_nil, List.foldl_cons, List.foldl_nil]
  have hstep : ppStep tr (tr - D) ([], ⟨T, W, D, [(c, ops)], [], a0, d0, b0, cp⟩) c
      = (ops, ⟨T, W, D, [], [], a0, d0, b0, cp⟩) := by
    unfold ppStep is_blocked
    simp [dictGet, dictDel, hfilter, hfilter2, hne]
  rw [hstep, ppFilter_unblocked]
  simp

/-- C2: Sub-threshold pass-through fails on the code — the program has two
concurrent consumers of the destructive `_process_pending`:
`MassOperationProtector._process_loop` (`src/src/listener.py` lines
174-189) wakes every `buffer_delay` seconds, calls `_process_pending()`
and DISCARDS the returned ready list, while
`TelegramListener._process_buffered_operations` (lines 544-585) wakes
every 0.5 s and applies what its own call returns.  In the interleaving
below — one edit for chat `-1001` queued at `t = 0` (threshold 5, delay
2 s), a protector tick at `t = 3`, the listener's next tick at `t = 4` —
the protector's tick removes the ready edit from the buffer (first
conjunct) and counts it applied (third conjunct), the listener's tick then
finds nothing (second conjunct), and storage keeps the original text
(fourth conjunct): the sub-threshold operation is dropped, never applied,
contradicting the claim and the code's own docstrings (lines 176-179,
544-551 say the loop "just triggers" processing and application is done by
the listener). -/
theorem subthreshold_drop_by_protector_tick :
    (process_pending (queueMany ⟨5, 10, 2, [], [], 0, 0, 0, []⟩ (-1001) "edit"
        [((0 : Int), OpData.edit 100 "new" none)]) 3).1
      = [⟨-1001, "edit", 0, OpData.edit 100 "new" none⟩] ∧
    (process_pending
        (process_pending (queueMany ⟨5, 10, 2, [], [], 0, 0, 0, []⟩ (-1001)
          "edit" [((0 : Int), OpData.edit 100 "new" none)]) 3).2 4).1 = [] ∧
    (process_pending (queueMany ⟨5, 10, 2, [], [], 0, 0, 0, []⟩ (-1001) "edit"
        [((0 : Int), OpData.edit 100 "new" none)]) 3).2.operations_applied
      = 1 ∧
    process_buffered_operations [⟨-1001, 100, "old", none⟩]
        (process_pending
          (process_pending (queueMany ⟨5, 10, 2, [], [], 0, 0, 0, []⟩ (-1001)
            "edit" [((0 : Int), OpData.edit 100 "new" none)]) 3).2 4).1
      = [⟨-1001, 100, "old", none⟩] := by
  refine ⟨?_, ?_, ?_, ?_⟩ <;> rfl

end TgArchive
